import Mathlib

/-!
Verification of the wordsail playbook execution and output-parsing engine
(package `ansible`, file containing `ExecutePlaybook`, `executeWithSpinner`,
`executeWithSpinnerAndResult`, `parseDNSStatus`, `parseSSLInfo`, and
`inventory.go` with `Generate`/`Cleanup`).

The Go code classifies subprocess output lines with four regexes
(Go `regexp`, RE2 syntax, leftmost-first submatch semantics):

  taskPattern   = `^TASK \[(.+?)\]`
  playPattern   = `^PLAY \[(.+?)\]`
  recapPattern  = `ok=(\d+)\s+changed=(\d+).*failed=(\d+)`
  failedPattern = `(FAILED!|fatal:)`
  dnsPattern    = `DNS_STATUS:\s*domain=(\S+)\s+resolved_ip=(\S+)\s+server_ip=(\S+)\s+matches=(\S+)`
  sslPattern    = `SSL_ISSUED:\s*domain=(\S+)\s+expiry=(.+)$`

Each regex is translated below into an executable matching function on
`List Char`.  For these particular patterns the greedy/lazy submatch
behaviour is deterministic: `\d+`, `\s+`, `\s*` and `\S+` runs are always
followed by a literal (or by `.`/end) whose first character cannot belong
to the run's class, so the maximal run is forced; the single `.*` in the
recap pattern resolves (by greedy backtracking) to the rightmost
`failed=<digits>` occurrence reachable without crossing a newline; the
lazy `(.+?)` in the task/play patterns resolves to the shortest non-empty
capture followed by `]`.  Unanchored patterns are searched leftmost-first
over all start positions.
-/

namespace Wordsail

/-- Go RE2 `\d`: ASCII decimal digit. -/
def goDigit (c : Char) : Bool := c.isDigit

/-- Go RE2 `\s`: `[\t\n\f\r ]`. -/
def goSpace (c : Char) : Bool :=
  c = ' ' || c = '\t' || c = '\n' || c = '\x0c' || c = '\r'

/-- Go RE2 `\S`: complement of `\s`. -/
def goNonSpace (c : Char) : Bool := !goSpace c

/-- Whitespace trimmed by Go `strings.TrimSpace` (`unicode.IsSpace`),
restricted to the code points that can appear here. -/
def goUniSpace (c : Char) : Bool :=
  c = ' ' || c = '\t' || c = '\n' || c = '\x0b' || c = '\x0c' || c = '\r' ||
  c = '\x85' || c = '\xA0'

/-- Go `strings.TrimSpace`. -/
def goTrimSpace (l : List Char) : List Char :=
  ((l.dropWhile goUniSpace).reverse.dropWhile goUniSpace).reverse

/-- Match a literal at the head of the input, returning the rest. -/
def chomp : List Char → List Char → Option (List Char)
  | [], l => some l
  | _ :: _, [] => none
  | p :: ps, c :: cs => if c = p then chomp ps cs else none

/-- Maximal non-empty run of characters satisfying `p` at the head of the
input (a forced-greedy `+` class), returning the run and the rest. -/
def run1 (p : Char → Bool) (l : List Char) : Option (List Char × List Char) :=
  match l.takeWhile p with
  | [] => none
  | t => some (t, l.dropWhile p)

/-- Leftmost search: try the matcher at every start position, earliest
success wins (Go regexp's leftmost rule for unanchored patterns). -/
def firstPos {α : Type} (f : List Char → Option α) : List Char → Option α
  | [] => none
  | c :: cs =>
    match f (c :: cs) with
    | some v => some v
    | none => firstPos f cs

/-- `failed=(\d+)` at the head of the input (capture is the forced-maximal
digit run). -/
def failedAt (l : List Char) : Option Nat := do
  let r ← chomp "failed=".toList l
  let (d, _) ← run1 goDigit r
  return d.foldl (fun a c => 10 * a + (c.toNat - 48)) 0

/-- Resolution of the greedy `.*failed=(\d+)` tail of the recap pattern:
the rightmost `failed=<digits>` occurrence whose preceding characters are
all matchable by `.` (i.e. contain no newline). -/
def lastFailed : List Char → Option Nat
  | [] => none
  | c :: cs =>
    match if c = '\n' then none else lastFailed cs with
    | some v => some v
    | none => failedAt (c :: cs)

/-- Decimal value of a digit run, as read back by `fmt.Sscanf(_, "%d")`. -/
def decDigits (d : List Char) : Nat :=
  d.foldl (fun a c => 10 * a + (c.toNat - 48)) 0

/-- Attempt of `ok=(\d+)\s+changed=(\d+).*failed=(\d+)` at one start
position. -/
def recapAt (l : List Char) : Option (Nat × Nat × Nat) := do
  let r ← chomp "ok=".toList l
  let (d1, r) ← run1 goDigit r
  let (_, r) ← run1 goSpace r
  let r ← chomp "changed=".toList r
  let (d2, r) ← run1 goDigit r
  let d3 ← lastFailed r
  return (decDigits d1, decDigits d2, d3)

/-- `recapPattern.FindStringSubmatch` — the three captured counters, or
`none` when the line does not match. -/
def recapMatch (s : String) : Option (Nat × Nat × Nat) :=
  firstPos recapAt s.toList

/-- The lazy `(.+?)\]` tail of the task/play patterns: shortest non-empty
newline-free capture followed by `]`. -/
def lazyCapture : List Char → Option (List Char)
  | [] => none
  | c :: rest => if c = '\n' then none else lazyGo [c] rest
where
  lazyGo (acc : List Char) : List Char → Option (List Char)
    | [] => none
    | x :: xs =>
      if x = ']' then some acc.reverse
      else if x = '\n' then none
      else lazyGo (x :: acc) xs

/-- `^TASK \[(.+?)\]` (anchored, so tried only at position 0). -/
def taskMatch (s : String) : Option String := do
  let r ← chomp "TASK [".toList s.toList
  let t ← lazyCapture r
  return String.mk t

/-- `^PLAY \[(.+?)\]`. -/
def playMatch (s : String) : Option String := do
  let r ← chomp "PLAY [".toList s.toList
  let t ← lazyCapture r
  return String.mk t

/-- Substring containment, for the alternation `(FAILED!|fatal:)`. -/
def hasSub (pat : List Char) : List Char → Bool
  | [] => (chomp pat []).isSome
  | c :: cs => (chomp pat (c :: cs)).isSome || hasSub pat cs

/-- `failedPattern.MatchString`: the line contains `FAILED!` or `fatal:`. -/
def failedMatch (s : String) : Bool :=
  hasSub "FAILED!".toList s.toList || hasSub "fatal:".toList s.toList

/-- DNS check result parsed from a `DNS_STATUS:` marker line
(Go struct `DNSStatus`). -/
structure DNSStatus where
  Domain : String
  ResolvedIP : String
  ServerIP : String
  Matches : Bool
  deriving Repr, DecidableEq

/-- SSL issuance result parsed from an `SSL_ISSUED:` marker line
(Go struct `SSLInfo`). -/
structure SSLInfo where
  Domain : String
  Expiry : String
  deriving Repr, DecidableEq

/-- Attempt of the DNS pattern at one start position.  The final
`matches=(\S+)` capture is compared by the Go code against the exact
strings `"True"` and `"true"`. -/
def dnsAt (l : List Char) : Option DNSStatus := do
  let r ← chomp "DNS_STATUS:".toList l
  let r := r.dropWhile goSpace
  let r ← chomp "domain=".toList r
  let (d, r) ← run1 goNonSpace r
  let (_, r) ← run1 goSpace r
  let r ← chomp "resolved_ip=".toList r
  let (rip, r) ← run1 goNonSpace r
  let (_, r) ← run1 goSpace r
  let r ← chomp "server_ip=".toList r
  let (sip, r) ← run1 goNonSpace r
  let (_, r) ← run1 goSpace r
  let r ← chomp "matches=".toList r
  let (m, _) ← run1 goNonSpace r
  return { Domain := String.mk d
           ResolvedIP := String.mk rip
           ServerIP := String.mk sip
           Matches := (String.mk m == "True") || (String.mk m == "true") }

/-- `dnsPattern.FindStringSubmatch` assembled into a `DNSStatus`. -/
def dnsMatch (s : String) : Option DNSStatus :=
  firstPos dnsAt s.toList

/-- Attempt of the SSL pattern at one start position, returning the domain
and the raw `(.+)$` capture (everything after `expiry=`, which must be
non-empty and newline-free). -/
def sslAt (l : List Char) : Option (String × List Char) := do
  let r ← chomp "SSL_ISSUED:".toList l
  let r := r.dropWhile goSpace
  let r ← chomp "domain=".toList r
  let (d, r) ← run1 goNonSpace r
  let (_, r) ← run1 goSpace r
  let r ← chomp "expiry=".toList r
  match r with
  | [] => none
  | _ => if r.all (fun c => !(c = '\n')) then some (String.mk d, r) else none

/-- `sslPattern.FindStringSubmatch`: domain and raw expiry capture. -/
def sslMatchRaw (s : String) : Option (String × String) :=
  (firstPos sslAt s.toList).map (fun p => (p.1, String.mk p.2))

/-- The `SSLInfo` the Go code builds: the raw capture passed through
`strings.TrimSpace`. -/
def sslMatch (s : String) : Option SSLInfo :=
  (firstPos sslAt s.toList).map
    (fun p => { Domain := p.1, Expiry := String.mk (goTrimSpace p.2) })

/-! ## Stream multiplexer and line classifier state

`executeWithSpinner` / `executeWithSpinnerAndResult` run one goroutine per
stream; every line is processed under one mutex, so an execution is
modelled as a single interleaved sequence of `(stream, line)` events, and
each event's processing is the body of the corresponding goroutine's loop.
-/

/-- The two output streams of the subprocess. -/
inductive StreamId where
  | stdout
  | stderr
  deriving Repr, DecidableEq

/-- One line arriving on one stream, processed under the shared mutex. -/
abbrev Event := StreamId × String

/-- Go struct `ExecutionResult`: the recap counters. -/
structure ExecutionResult where
  Ok : Nat
  Changed : Nat
  Failed : Nat
  deriving Repr, DecidableEq

/-- The mutable state shared by the two stream-reader goroutines:
`outputBuffer`, `errorBuffer`, `result`, `currentTask`, the spinner
suffix, and the sticky `failed` flag. -/
structure ScanState where
  outputBuffer : List String
  errorBuffer : List String
  result : ExecutionResult
  currentTask : String
  spinnerSuffix : String
  failed : Bool
  deriving Repr, DecidableEq

/-- The state before any line has arrived. -/
def initState : ScanState :=
  { outputBuffer := []
    errorBuffer := []
    result := { Ok := 0, Changed := 0, Failed := 0 }
    currentTask := ""
    spinnerSuffix := " Starting..."
    failed := false }

/-- Body of the stdout-reader loop: append the line to `outputBuffer`;
on a task match set `currentTask` and the spinner suffix, else on a play
match set only the suffix; a failure-marker match sets the sticky flag;
a recap match overwrites all three counters. -/
def processStdoutLine (st : ScanState) (line : String) : ScanState :=
  { outputBuffer := st.outputBuffer ++ [line]
    errorBuffer := st.errorBuffer
    result :=
      match recapMatch line with
      | some (a, b, c) => { Ok := a, Changed := b, Failed := c }
      | none => st.result
    currentTask :=
      match taskMatch line with
      | some t => t
      | none => st.currentTask
    spinnerSuffix :=
      match taskMatch line with
      | some t => " " ++ t
      | none =>
        match playMatch line with
        | some p => " " ++ p
        | none => st.spinnerSuffix
    failed := st.failed || failedMatch line }

/-- Body of the stderr-reader loop: append to `errorBuffer` and check the
failure marker. -/
def processStderrLine (st : ScanState) (line : String) : ScanState :=
  { st with
    errorBuffer := st.errorBuffer ++ [line]
    failed := st.failed || failedMatch line }

/-- Dispatch one interleaved event to its stream's loop body. -/
def stepEvent (st : ScanState) (e : Event) : ScanState :=
  match e.1 with
  | StreamId.stdout => processStdoutLine st e.2
  | StreamId.stderr => processStderrLine st e.2

/-- Run the classifier over an interleaving, from an arbitrary state. -/
def runFrom (st : ScanState) (ev : List Event) : ScanState :=
  ev.foldl stepEvent st

/-- Full scan of one invocation's interleaved output. -/
def runScan (ev : List Event) : ScanState :=
  runFrom initState ev

/-- Go struct `PlaybookResult`. -/
structure PlaybookResult where
  Success : Bool
  Output : List String
  DNSStatusR : Option DNSStatus
  SSLInfoR : Option SSLInfo
  deriving Repr, DecidableEq

/-- `parseDNSStatus`: first line of the captured output matching the DNS
pattern. -/
def parseDNSStatus : List String → Option DNSStatus
  | [] => none
  | l :: ls =>
    match dnsMatch l with
    | some v => some v
    | none => parseDNSStatus ls

/-- `parseSSLInfo`: first line matching the SSL pattern. -/
def parseSSLInfo : List String → Option SSLInfo
  | [] => none
  | l :: ls =>
    match sslMatch l with
    | some v => some v
    | none => parseSSLInfo ls

/-- `executeWithSpinnerAndResult` after the subprocess has started: both
streams are drained (the interleaving `ev`), `cmd.Wait` yields `exitCode`
(`cmdErr == nil` iff `exitCode = 0`), the result record is always built
from the scan state, and the error returned alongside it follows the Go
branches. -/
def executeWithSpinnerAndResultModel (exitCode : Nat) (ev : List Event) :
    PlaybookResult × Option String :=
  let st := runScan ev
  let playbookResult : PlaybookResult :=
    { Success := (exitCode == 0) && !st.failed && (st.result.Failed == 0)
      Output := st.outputBuffer
      DNSStatusR := parseDNSStatus st.outputBuffer
      SSLInfoR := parseSSLInfo st.outputBuffer }
  (playbookResult,
    if exitCode != 0 then some "ansible-playbook failed"
    else if st.failed || decide (st.result.Failed > 0) then
      some "playbook completed with failures"
    else none)

/-- `executeWithSpinner` (the no-result variant): returns an error under
exactly the same condition. -/
def executeWithSpinnerModel (exitCode : Nat) (ev : List Event) :
    Option String :=
  let st := runScan ev
  if exitCode != 0 then some "ansible-playbook failed"
  else if st.failed || decide (st.result.Failed > 0) then
    some "playbook completed with failures"
  else none

/-! ## The done-channel protocols of the two execution modes

In spinner (quiet) mode both `ExecutePlaybook` variants make
`done := make(chan bool, 2)`, each stream-reader goroutine sends on
`done` after its scan loop ends (end of stream), and the main thread
receives twice before calling `cmd.Wait()`.

In verbose mode `ExecutePlaybook` makes an unbuffered `done` channel,
only the stdout goroutine sends on it, the stderr goroutine does not,
and the main thread receives exactly once before `cmd.Wait()`; the
verbose readers (`streamOutput`) print lines and keep no buffer.
-/

/-- Goroutines that signal completion on the spinner-mode done channel. -/
def spinnerDoneSenders : List StreamId := [StreamId.stdout, StreamId.stderr]

/-- Number of done-channel receives in spinner mode before `cmd.Wait`. -/
def spinnerDoneReceives : Nat := 2

/-- Goroutines that signal completion on the verbose-mode done channel:
only the stdout reader. -/
def verboseDoneSenders : List StreamId := [StreamId.stdout]

/-- Number of done-channel receives in verbose mode before `cmd.Wait`. -/
def verboseDoneReceives : Nat := 1

/-! ## Variable payload merge and the subprocess argument vector -/

/-- A JSON-encodable variable value (the payloads passed as
`map[string]interface{}` hold scalars). -/
inductive JVal where
  | jnum (n : Int)
  | jstr (s : String)
  deriving Repr, DecidableEq

/-- A Go map value, represented as an association list with unique keys
maintained by `mapInsert`. -/
abbrev VarMap := List (String × JVal)

/-- Go map assignment `m[k] = v`: replaces any existing binding of `k`. -/
def mapInsert (m : VarMap) (kv : String × JVal) : VarMap :=
  m.filter (fun p => !(p.1 == kv.1)) ++ [kv]

/-- Go map read `m[k]`. -/
def lookupVar : VarMap → String → Option JVal
  | [], _ => none
  | kv :: m, k => if kv.1 == k then some kv.2 else lookupVar m k

/-- Rightmost binding of `k` in a raw association list (how repeated
insertions into a Go map resolve). -/
def lookupLastV : VarMap → String → Option JVal
  | [], _ => none
  | kv :: m, k =>
    match lookupLastV m k with
    | some v => some v
    | none => if kv.1 == k then some kv.2 else none

/-- The merge loops of `ExecutePlaybook` / `ExecutePlaybookWithResult`:
`allVars := {}`; copy `globalVars` in; copy `extraVars` in (overwriting on
key collision). -/
def mergeVars (globalVars extraVars : VarMap) : VarMap :=
  extraVars.foldl mapInsert (globalVars.foldl mapInsert [])

/-- JSON string escaping (quote and backslash; the payloads here contain
no control characters). -/
def jstrEscape (s : String) : String :=
  s.toList.foldl
    (fun acc c =>
      if c = '"' then acc ++ "\\\""
      else if c = '\\' then acc ++ "\\\\"
      else acc ++ String.mk [c]) ""

/-- Rendering of one JSON value by `encoding/json`. -/
def jvalEncode : JVal → String
  | JVal.jnum n => toString n
  | JVal.jstr s => "\"" ++ jstrEscape s ++ "\""

/-- Insert into a key-sorted association list. -/
def insertSorted (kv : String × JVal) : VarMap → VarMap
  | [] => [kv]
  | x :: xs =>
    if compare kv.1 x.1 = Ordering.lt then kv :: x :: xs
    else x :: insertSorted kv xs

/-- `encoding/json` marshals a Go map with its keys sorted. -/
def sortVars (m : VarMap) : VarMap :=
  m.foldr insertSorted []

/-- `json.Marshal` of a `map[string]interface{}`. -/
def jsonObject (m : VarMap) : String :=
  "\x7b" ++
    String.intercalate ","
      ((sortVars m).map (fun kv => "\"" ++ jstrEscape kv.1 ++ "\":" ++ jvalEncode kv.2)) ++
  "\x7d"

/-- The argument vector built by `ExecutePlaybookWithResult` (lines
360-392; `ExecutePlaybook` builds the same one): playbook path, inventory
flag, optional `-vv`, optional `--check`, and `--extra-vars <json>` only
when the merged map is non-empty. -/
def execArgs (playbookPath inventoryPath : String) (verbose dryRun : Bool)
    (globalVars extraVars : VarMap) : List String :=
  let allVars := mergeVars globalVars extraVars
  [playbookPath, "-i", inventoryPath] ++
    (if verbose then ["-vv"] else []) ++
    (if dryRun then ["--check"] else []) ++
    (if allVars.length > 0 then ["--extra-vars", jsonObject allVars] else [])

/-! ## Inventory cleanup

`Cleanup` returns `nil` for the empty path and otherwise returns
`os.Remove(path)` directly; `os.Remove` fails with a path error when the
file does not exist.  The filesystem is modelled as the list of existing
paths. -/

/-- Go `os.Remove`: deletes the file, or returns a path error if it is
absent. -/
def osRemove (fs : List String) (path : String) : List String × Option String :=
  if path ∈ fs then (fs.erase path, none)
  else (fs, some ("remove " ++ path ++ ": no such file or directory"))

/-- `InventoryGenerator.Cleanup`. -/
def Cleanup (fs : List String) (inventoryPath : String) :
    List String × Option String :=
  if inventoryPath = "" then (fs, none)
  else osRemove fs inventoryPath

/-! ## Fold lemmas about the scan state -/

/-- The stdout lines of an interleaving, in arrival order. -/
def stdoutLines (ev : List Event) : List String :=
  ev.filterMap (fun e =>
    match e.1 with
    | StreamId.stdout => some e.2
    | StreamId.stderr => none)

/-- The stderr lines of an interleaving, in arrival order. -/
def stderrLines (ev : List Event) : List String :=
  ev.filterMap (fun e =>
    match e.1 with
    | StreamId.stdout => none
    | StreamId.stderr => some e.2)

/-- The recap triple an event contributes (stdout lines only). -/
def recapOfEvent (e : Event) : Option ExecutionResult :=
  match e.1 with
  | StreamId.stdout =>
    (recapMatch e.2).map (fun t => { Ok := t.1, Changed := t.2.1, Failed := t.2.2 })
  | StreamId.stderr => none

/-- The recap stored after a sequence of events: the last contributing
event wins. -/
def lastRecapOf : List Event → Option ExecutionResult
  | [] => none
  | e :: ev =>
    match lastRecapOf ev with
    | some t => some t
    | none => recapOfEvent e

theorem stepEvent_outputBuffer (st : ScanState) (e : Event) :
    (stepEvent st e).outputBuffer =
      st.outputBuffer ++ (match e.1 with
        | StreamId.stdout => [e.2]
        | StreamId.stderr => []) := by
  rcases e with ⟨s, l⟩
  cases s <;> simp [stepEvent, processStdoutLine, processStderrLine]

theorem stepEvent_errorBuffer (st : ScanState) (e : Event) :
    (stepEvent st e).errorBuffer =
      st.errorBuffer ++ (match e.1 with
        | StreamId.stdout => []
        | StreamId.stderr => [e.2]) := by
  rcases e with ⟨s, l⟩
  cases s <;> simp [stepEvent, processStdoutLine, processStderrLine]

theorem stepEvent_failed (st : ScanState) (e : Event) :
    (stepEvent st e).failed = (st.failed || failedMatch e.2) := by
  rcases e with ⟨s, l⟩
  cases s <;> simp [stepEvent, processStdoutLine, processStderrLine]

theorem stepEvent_result (st : ScanState) (e : Event) :
    (stepEvent st e).result =
      match recapOfEvent e with
      | some t => t
      | none => st.result := by
  rcases e with ⟨s, l⟩
  cases s <;> simp only [stepEvent, processStdoutLine, processStderrLine, recapOfEvent]
  · cases h : recapMatch l with
    | none => simp [h]
    | some t => rcases t with ⟨a, b, c⟩; simp [h]

theorem runFrom_outputBuffer (ev : List Event) (st : ScanState) :
    (runFrom st ev).outputBuffer = st.outputBuffer ++ stdoutLines ev := by
  induction ev generalizing st with
  | nil => simp [runFrom, stdoutLines]
  | cons e ev ih =>
    rcases e with ⟨s, l⟩
    show (runFrom (stepEvent st (s, l)) ev).outputBuffer = _
    rw [ih, stepEvent_outputBuffer]
    cases s <;> simp [stdoutLines]

theorem runFrom_errorBuffer (ev : List Event) (st : ScanState) :
    (runFrom st ev).errorBuffer = st.errorBuffer ++ stderrLines ev := by
  induction ev generalizing st with
  | nil => simp [runFrom, stderrLines]
  | cons e ev ih =>
    rcases e with ⟨s, l⟩
    show (runFrom (stepEvent st (s, l)) ev).errorBuffer = _
    rw [ih, stepEvent_errorBuffer]
    cases s <;> simp [stderrLines]

theorem runFrom_failed (ev : List Event) (st : ScanState) :
    (runFrom st ev).failed = (st.failed || ev.any (fun e => failedMatch e.2)) := by
  induction ev generalizing st with
  | nil => simp [runFrom]
  | cons e ev ih =>
    show (runFrom (stepEvent st e) ev).failed = _
    rw [ih, stepEvent_failed]
    simp [Bool.or_assoc]

theorem runFrom_result (ev : List Event) (st : ScanState) :
    (runFrom st ev).result =
      match lastRecapOf ev with
      | some t => t
      | none => st.result := by
  induction ev generalizing st with
  | nil => simp [runFrom, lastRecapOf]
  | cons e ev ih =>
    show (runFrom (stepEvent st e) ev).result = _
    rw [ih, stepEvent_result]
    simp only [lastRecapOf]
    cases lastRecapOf ev <;> cases h : recapOfEvent e <;> simp [h]

theorem stdout_stderr_length (ev : List Event) :
    (stdoutLines ev).length + (stderrLines ev).length = ev.length := by
  induction ev with
  | nil => simp [stdoutLines, stderrLines]
  | cons e ev ih =>
    rcases e with ⟨s, l⟩
    cases s <;> simp [stdoutLines, stderrLines] at ih ⊢ <;> omega

theorem lastRecapOf_eq_none (ev : List Event)
    (h : ∀ e ∈ ev, recapOfEvent e = none) : lastRecapOf ev = none := by
  induction ev with
  | nil => rfl
  | cons e ev ih =>
    simp only [lastRecapOf]
    rw [ih (fun x hx => h x (List.mem_cons_of_mem e hx)), h e (List.mem_cons_self e ev)]

theorem runScan_append (ev1 ev2 : List Event) :
    runScan (ev1 ++ ev2) = runFrom (runScan ev1) ev2 := by
  simp [runScan, runFrom, List.foldl_append]

/-! ## First-match and lookup lemmas -/

theorem parseDNSStatus_append (pre rest : List String)
    (h : ∀ x ∈ pre, dnsMatch x = none) :
    parseDNSStatus (pre ++ rest) = parseDNSStatus rest := by
  induction pre with
  | nil => rfl
  | cons x xs ih =>
    have hx : dnsMatch x = none := h x (List.mem_cons_self x xs)
    simp only [List.cons_append, parseDNSStatus, hx]
    exact ih (fun y hy => h y (List.mem_cons_of_mem x hy))

theorem parseDNSStatus_cons_some (l : String) (rest : List String)
    (r : DNSStatus) (h : dnsMatch l = some r) :
    parseDNSStatus (l :: rest) = some r := by
  simp [parseDNSStatus, h]

theorem parseSSLInfo_append (pre rest : List String)
    (h : ∀ x ∈ pre, sslMatch x = none) :
    parseSSLInfo (pre ++ rest) = parseSSLInfo rest := by
  induction pre with
  | nil => rfl
  | cons x xs ih =>
    have hx : sslMatch x = none := h x (List.mem_cons_self x xs)
    simp only [List.cons_append, parseSSLInfo, hx]
    exact ih (fun y hy => h y (List.mem_cons_of_mem x hy))

theorem parseSSLInfo_cons_some (l : String) (rest : List String)
    (r : SSLInfo) (h : sslMatch l = some r) :
    parseSSLInfo (l :: rest) = some r := by
  simp [parseSSLInfo, h]

theorem lookupVar_append (l1 l2 : VarMap) (k : String) :
    lookupVar (l1 ++ l2) k =
      match lookupVar l1 k with
      | some v => some v
      | none => lookupVar l2 k := by
  induction l1 with
  | nil => rfl
  | cons kv l1 ih =>
    by_cases h : kv.1 = k <;> simp [lookupVar, h, ih]

theorem lookupVar_filterNe (m : VarMap) (k0 k : String) :
    lookupVar (m.filter (fun p => !(p.1 == k0))) k =
      if k = k0 then none else lookupVar m k := by
  induction m with
  | nil => simp [lookupVar]
  | cons kv m ih =>
    by_cases hk : kv.1 = k0
    · have hf : (kv :: m).filter (fun p => !(p.1 == k0)) =
          m.filter (fun p => !(p.1 == k0)) := by
        simp [List.filter_cons, hk]
      rw [hf, ih]
      by_cases hkk : k = k0
      · simp [hkk]
      · have hkv : ¬ kv.1 = k := fun h => hkk (by rw [← h, hk])
        simp [hkk, lookupVar, hkv]
    · have hf : (kv :: m).filter (fun p => !(p.1 == k0)) =
          kv :: m.filter (fun p => !(p.1 == k0)) := by
        simp [List.filter_cons, hk]
      rw [hf]
      by_cases hkv : kv.1 = k
      · have hkk : ¬ k = k0 := fun h => hk (by rw [hkv, h])
        simp [lookupVar, hkv, hkk]
      · simp [lookupVar, hkv, ih]

theorem lookupVar_mapInsert (m : VarMap) (kv : String × JVal) (k : String) :
    lookupVar (mapInsert m kv) k =
      if kv.1 = k then some kv.2 else lookupVar m k := by
  rw [mapInsert, lookupVar_append, lookupVar_filterNe]
  by_cases h : k = kv.1
  · simp [h, lookupVar]
  · have h' : ¬ kv.1 = k := fun hh => h hh.symm
    simp [h, h', lookupVar]
    cases lookupVar m k <;> simp

theorem lookupVar_foldl_mapInsert (l : VarMap) (G : VarMap) (k : String) :
    lookupVar (l.foldl mapInsert G) k =
      match lookupLastV l k with
      | some v => some v
      | none => lookupVar G k := by
  induction l generalizing G with
  | nil => rfl
  | cons kv l ih =>
    show lookupVar (l.foldl mapInsert (mapInsert G kv)) k = _
    rw [ih, lookupVar_mapInsert]
    simp only [lookupLastV]
    cases lookupLastV l k <;> by_cases h : kv.1 = k <;> simp [h]

theorem lookupVar_mergeVars (g e : VarMap) (k : String) :
    lookupVar (mergeVars g e) k =
      match lookupLastV e k with
      | some v => some v
      | none => lookupLastV g k := by
  rw [mergeVars, lookupVar_foldl_mapInsert, lookupVar_foldl_mapInsert]
  cases lookupLastV e k <;> cases h : lookupLastV g k <;> simp [lookupVar]

/-- The sticky flag is false after a scan exactly when no line of either
stream matched the failure pattern. -/
theorem scan_failed_false_iff (ev : List Event) :
    (runScan ev).failed = false ↔ ∀ e ∈ ev, failedMatch e.2 = false := by
  rw [runScan, runFrom_failed]
  show (false || _) = false ↔ _
  rw [Bool.false_or]
  constructor
  · intro h e he
    cases hf : failedMatch e.2
    · rfl
    · have : ev.any (fun e => failedMatch e.2) = true :=
        List.any_eq_true.mpr ⟨e, he, hf⟩
      rw [h] at this
      cases this
  · intro h
    cases hany : ev.any (fun e => failedMatch e.2)
    · rfl
    · obtain ⟨e, he, hf⟩ := List.any_eq_true.mp hany
      rw [h e he] at hf
      cases hf

/-! ## Claims -/

/-- C1: the aggregated success verdict is true iff the subprocess exit
code is 0, no output line (on either stream) ever matched the failure
pattern (so the sticky flag was never set), and the stored recap failed
counter is 0 — equivalently, the recap reported failed=0 or no recap line
was ever seen; any single failing signal forces a failure verdict. -/
theorem C1_success_verdict (exitCode : Nat) (ev : List Event) :
    (executeWithSpinnerAndResultModel exitCode ev).1.Success = true ↔
      (exitCode = 0 ∧ (∀ e ∈ ev, failedMatch e.2 = false) ∧
        ((runScan ev).result.Failed = 0 ∨ ∀ e ∈ ev, recapOfEvent e = none)) := by
  have hS : (executeWithSpinnerAndResultModel exitCode ev).1.Success =
      ((exitCode == 0) && !(runScan ev).failed &&
        ((runScan ev).result.Failed == 0)) := rfl
  rw [hS]
  simp only [Bool.and_eq_true, Bool.not_eq_true', beq_iff_eq, scan_failed_false_iff]
  constructor
  · rintro ⟨⟨h1, h2⟩, h3⟩
    exact ⟨h1, h2, Or.inl h3⟩
  · rintro ⟨h1, h2, h3 | h3⟩
    · exact ⟨⟨h1, h2⟩, h3⟩
    · refine ⟨⟨h1, h2⟩, ?_⟩
      rw [runScan, runFrom_result, lastRecapOf_eq_none ev h3]
      rfl

/-- C2 counterexample: in verbose mode the claim fails — the stderr
reader goroutine never signals the done channel (only the stdout reader
does), so the executor does not wait for the stderr stream to reach
end-of-stream before calling `cmd.Wait` and returning. -/
theorem C2_verbose_counterexample : ¬ (StreamId.stderr ∈ verboseDoneSenders) := by
  decide

/-- C2 (amended): in spinner (quiet) mode both stream readers signal the
done channel and the executor receives twice before returning, and for
every interleaving of the two streams the captured buffers hold exactly
the stdout lines and the stderr lines in order, so together they contain
exactly N + M lines. -/
theorem C2_stream_completeness :
    (∀ s : StreamId, s ∈ spinnerDoneSenders) ∧ spinnerDoneReceives = 2 ∧
    ∀ ev : List Event,
      (runScan ev).outputBuffer = stdoutLines ev ∧
      (runScan ev).errorBuffer = stderrLines ev ∧
      (runScan ev).outputBuffer.length + (runScan ev).errorBuffer.length = ev.length := by
  refine ⟨fun s => by cases s <;> decide, rfl, fun ev => ?_⟩
  have h1 : (runScan ev).outputBuffer = stdoutLines ev := by
    rw [runScan, runFrom_outputBuffer]
    show [] ++ _ = _
    rw [List.nil_append]
  have h2 : (runScan ev).errorBuffer = stderrLines ev := by
    rw [runScan, runFrom_errorBuffer]
    show [] ++ _ = _
    rw [List.nil_append]
  exact ⟨h1, h2, by rw [h1, h2]; exact stdout_stderr_length ev⟩

/-- C3: the failure flag is sticky — once some processed prefix has set
it, any continuation of the invocation (including one containing a recap
line with failed=0) leaves it set, and the final verdict is failure. -/
theorem C3_sticky_failure (ev1 ev2 : List Event) (exitCode : Nat)
    (h : (runScan ev1).failed = true) :
    (runScan (ev1 ++ ev2)).failed = true ∧
    (executeWithSpinnerAndResultModel exitCode (ev1 ++ ev2)).1.Success = false := by
  have hf : (runScan (ev1 ++ ev2)).failed = true := by
    rw [runScan_append, runFrom_failed, h, Bool.true_or]
  refine ⟨hf, ?_⟩
  have hS : (executeWithSpinnerAndResultModel exitCode (ev1 ++ ev2)).1.Success =
      ((exitCode == 0) && !(runScan (ev1 ++ ev2)).failed &&
        ((runScan (ev1 ++ ev2)).result.Failed == 0)) := rfl
  rw [hS, hf]
  simp

/-- C3 witness: a concrete `fatal:` stdout line sets the flag; a later
recap line reporting failed=0 does not clear it and the verdict at exit
code 0 is still failure. -/
theorem C3_sticky_failure_witness :
    (runScan [(StreamId.stdout, "fatal: [web]: FAILED! => task error")]).failed = true ∧
    ((runScan ([(StreamId.stdout, "fatal: [web]: FAILED! => task error")] ++
        [(StreamId.stdout, "web : ok=3 changed=1 unreachable=0 failed=0")])).failed = true ∧
      (executeWithSpinnerAndResultModel 0
        ([(StreamId.stdout, "fatal: [web]: FAILED! => task error")] ++
          [(StreamId.stdout, "web : ok=3 changed=1 unreachable=0 failed=0")])).1.Success = false) :=
  ⟨by decide, C3_sticky_failure _ _ 0 (by decide)⟩

/-- C4 counterexample: a line with an extra counter between `ok=` and
`changed=` does not match the recap pattern (which requires `changed=` to
follow `ok=<int>` after whitespace only), so the three integers are not
stored, contradicting the claim that counters may be interspersed
anywhere between the three fields. -/
theorem C4_interspersed_counterexample :
    recapMatch "ok=1 unreachable=0 changed=2 failed=3" = none ∧
    (runScan [(StreamId.stdout, "ok=1 unreachable=0 changed=2 failed=3")]).result =
      { Ok := 0, Changed := 0, Failed := 0 } := by
  exact ⟨by decide, by decide⟩

/-- C4 (amended): for every stdout line the recap pattern matches —
`ok=<int>` followed by whitespace, then immediately `changed=<int>`, then
arbitrary text with extra counters allowed only there, then `failed=<int>`
(last occurrence on the line winning) — the classifier stores the three
parsed integers, overwriting any previously stored recap, so across lines
the last matching line wins. -/
theorem C4_recap_overwrite (ev : List Event) (l : String) (a b c : Nat)
    (h : recapMatch l = some (a, b, c)) :
    (runScan (ev ++ [(StreamId.stdout, l)])).result =
      { Ok := a, Changed := b, Failed := c } := by
  rw [runScan_append]
  show (stepEvent (runScan ev) (StreamId.stdout, l)).result = _
  rw [stepEvent_result]
  simp [recapOfEvent, h]

/-- C4 witness: a realistic recap line parses to (10, 2, 0) and
overwrites an earlier recap (5, 1, 1). -/
theorem C4_recap_overwrite_witness :
    recapMatch "web : ok=10 changed=2 unreachable=0 failed=0" = some (10, 2, 0) ∧
    (runScan ([(StreamId.stdout, "web : ok=5 changed=1 unreachable=0 failed=1")] ++
        [(StreamId.stdout, "web : ok=10 changed=2 unreachable=0 failed=0")])).result =
      { Ok := 10, Changed := 2, Failed := 0 } :=
  ⟨by decide, C4_recap_overwrite _ _ 10 2 0 (by decide)⟩

/-- C5 counterexample: with `matches=TRUE` the classifier produces
`Matches = false` (the code compares the capture only against the exact
strings `"True"` and `"true"`), so case-insensitive boolean parsing as
claimed does not hold. -/
theorem C5_case_counterexample :
    parseDNSStatus
        ["DNS_STATUS: domain=example.com resolved_ip=1.2.3.4 server_ip=5.6.7.8 matches=TRUE"] =
      some { Domain := "example.com", ResolvedIP := "1.2.3.4",
             ServerIP := "5.6.7.8", Matches := false } ∧
    ¬ (parseDNSStatus
        ["DNS_STATUS: domain=example.com resolved_ip=1.2.3.4 server_ip=5.6.7.8 matches=TRUE"] =
      some { Domain := "example.com", ResolvedIP := "1.2.3.4",
             ServerIP := "5.6.7.8", Matches := true }) := by
  exact ⟨by decide, by decide⟩

/-- C5 (amended): the exact marker line yields the expected sub-result
with `Matches = true`, and so does the `True` spelling; the `TRUE`
spelling is parsed but yields `Matches = false` (the boolean comparison
is against `"true"`/`"True"` only, not case-insensitive). -/
theorem C5_marker_roundtrip :
    parseDNSStatus
        ["DNS_STATUS: domain=example.com resolved_ip=1.2.3.4 server_ip=5.6.7.8 matches=true"] =
      some { Domain := "example.com", ResolvedIP := "1.2.3.4",
             ServerIP := "5.6.7.8", Matches := true } ∧
    parseDNSStatus
        ["DNS_STATUS: domain=example.com resolved_ip=1.2.3.4 server_ip=5.6.7.8 matches=True"] =
      some { Domain := "example.com", ResolvedIP := "1.2.3.4",
             ServerIP := "5.6.7.8", Matches := true } ∧
    parseDNSStatus
        ["DNS_STATUS: domain=example.com resolved_ip=1.2.3.4 server_ip=5.6.7.8 matches=TRUE"] =
      some { Domain := "example.com", ResolvedIP := "1.2.3.4",
             ServerIP := "5.6.7.8", Matches := false } := by
  exact ⟨by decide, by decide, by decide⟩

/-- C6 counterexample: when both variable payloads are empty the merged
map is empty and the argument vector carries no serialized-variables flag
at all, contradicting the claim that every execution request carries one. -/
theorem C6_empty_counterexample :
    ¬ ("--extra-vars" ∈ execArgs "site.yml" "/tmp/wordsail-web.ini" false false [] []) ∧
    execArgs "site.yml" "/tmp/wordsail-web.ini" false false [] [] =
      ["site.yml", "-i", "/tmp/wordsail-web.ini"] := by
  exact ⟨by decide, by decide⟩

/-- C6 (amended): whenever the merged payload is non-empty, the argument
vector ends with a single `--extra-vars` flag whose value is the JSON
encoding (sorted keys) of the merge of the global payload and then the
call-specific payload, and lookup in the merged payload prefers the
call-specific binding on key collision. -/
theorem C6_vars_flag (pb inv : String) (vb dr : Bool) (g e : VarMap)
    (h : mergeVars g e ≠ []) :
    execArgs pb inv vb dr g e =
      [pb, "-i", inv] ++ (if vb then ["-vv"] else []) ++
        (if dr then ["--check"] else []) ++
        ["--extra-vars", jsonObject (mergeVars g e)] ∧
    ∀ k, lookupVar (mergeVars g e) k =
      match lookupLastV e k with
      | some v => some v
      | none => lookupLastV g k := by
  refine ⟨?_, fun k => lookupVar_mergeVars g e k⟩
  have hlen : (mergeVars g e).length > 0 := List.length_pos.mpr h
  simp only [execArgs]
  rw [if_pos hlen]

/-- C6 witness: merging global {a: 1, b: 2} with call-specific
{b: 3, c: 4} yields {a: 1, b: 3, c: 4} and the flag value is its JSON
encoding. -/
theorem C6_vars_flag_witness :
    mergeVars [("a", JVal.jnum 1), ("b", JVal.jnum 2)]
        [("b", JVal.jnum 3), ("c", JVal.jnum 4)] ≠ [] ∧
    execArgs "site.yml" "/tmp/wordsail-web.ini" false false
        [("a", JVal.jnum 1), ("b", JVal.jnum 2)]
        [("b", JVal.jnum 3), ("c", JVal.jnum 4)] =
      ["site.yml", "-i", "/tmp/wordsail-web.ini", "--extra-vars",
        "\x7b\"a\":1,\"b\":3,\"c\":4\x7d"] ∧
    lookupVar (mergeVars [("a", JVal.jnum 1), ("b", JVal.jnum 2)]
        [("b", JVal.jnum 3), ("c", JVal.jnum 4)]) "b" = some (JVal.jnum 3) := by
  have h : mergeVars [("a", JVal.jnum 1), ("b", JVal.jnum 2)]
      [("b", JVal.jnum 3), ("c", JVal.jnum 4)] ≠ [] := by decide
  have main := C6_vars_flag "site.yml" "/tmp/wordsail-web.ini" false false
    [("a", JVal.jnum 1), ("b", JVal.jnum 2)] [("b", JVal.jnum 3), ("c", JVal.jnum 4)] h
  exact ⟨h, main.1.trans (by decide), by decide⟩

/-- C7 counterexample: a second cleanup of the same path, and a cleanup
of a never-created path, both return an error ( `os.Remove` is called
with no not-exist check), contradicting the idempotency claim. -/
theorem C7_cleanup_not_idempotent :
    ((Cleanup ((Cleanup ["/tmp/wordsail-db.ini"] "/tmp/wordsail-db.ini").1)
        "/tmp/wordsail-db.ini").2).isSome = true ∧
    ((Cleanup [] "/tmp/wordsail-never-created.ini").2).isSome = true := by
  exact ⟨by decide, by decide⟩

/-- C7 (amended): cleanup of the empty path returns no error; for a
non-empty path it returns `os.Remove`'s result — no error when the file
exists (deleting it), and an error when it does not, so the second of two
cleanups of the same path errors (callers discard the returned error). -/
theorem C7_cleanup_behaviour (fs : List String) (p : String)
    (hp : p ≠ "") (hnd : fs.Nodup) :
    (Cleanup fs "").2 = none ∧
    (p ∈ fs → (Cleanup fs p).2 = none ∧
      ((Cleanup ((Cleanup fs p).1) p).2).isSome = true) ∧
    (p ∉ fs → ((Cleanup fs p).2).isSome = true) := by
  refine ⟨by rw [Cleanup, if_pos rfl], ?_, ?_⟩
  · intro hmem
    have h1 : Cleanup fs p = (fs.erase p, none) := by
      rw [Cleanup, if_neg hp, osRemove, if_pos hmem]
    have h2 : p ∉ fs.erase p := fun hc =>
      ((List.Nodup.mem_erase_iff hnd).mp hc).1 rfl
    rw [h1]
    refine ⟨rfl, ?_⟩
    show ((Cleanup (fs.erase p) p).2).isSome = true
    rw [Cleanup, if_neg hp, osRemove, if_neg h2]
    rfl
  · intro hmem
    rw [Cleanup, if_neg hp, osRemove, if_neg hmem]
    rfl

/-- C7 witness: concrete run on a filesystem holding one inventory file. -/
theorem C7_cleanup_behaviour_witness :
    ("/tmp/wordsail-web-20240101.ini" : String) ≠ "" ∧
    (["/tmp/wordsail-web-20240101.ini"] : List String).Nodup ∧
    ((Cleanup ["/tmp/wordsail-web-20240101.ini"] "").2 = none ∧
      ("/tmp/wordsail-web-20240101.ini" ∈ ["/tmp/wordsail-web-20240101.ini"] →
        (Cleanup ["/tmp/wordsail-web-20240101.ini"] "/tmp/wordsail-web-20240101.ini").2 = none ∧
        ((Cleanup ((Cleanup ["/tmp/wordsail-web-20240101.ini"]
            "/tmp/wordsail-web-20240101.ini").1)
          "/tmp/wordsail-web-20240101.ini").2).isSome = true) ∧
      ("/tmp/wordsail-web-20240101.ini" ∉ ["/tmp/wordsail-web-20240101.ini"] →
        ((Cleanup ["/tmp/wordsail-web-20240101.ini"]
            "/tmp/wordsail-web-20240101.ini").2).isSome = true)) :=
  ⟨by decide, by decide,
    C7_cleanup_behaviour ["/tmp/wordsail-web-20240101.ini"]
      "/tmp/wordsail-web-20240101.ini" (by decide) (by decide)⟩

/-- C8: the result record returned by the result-returning execution
always carries the DNS and SSL sub-results parsed from the captured
stdout buffer, whatever the verdict; an error is returned exactly when
the verdict is failure, and even then the accompanying record carries the
parsed sub-results. -/
theorem C8_subresults_always_attached (exitCode : Nat) (ev : List Event) :
    (executeWithSpinnerAndResultModel exitCode ev).1.DNSStatusR =
      parseDNSStatus ((runScan ev).outputBuffer) ∧
    (executeWithSpinnerAndResultModel exitCode ev).1.SSLInfoR =
      parseSSLInfo ((runScan ev).outputBuffer) ∧
    ((executeWithSpinnerAndResultModel exitCode ev).2.isSome ↔
      (executeWithSpinnerAndResultModel exitCode ev).1.Success = false) := by
  refine ⟨rfl, rfl, ?_⟩
  by_cases h1 : exitCode = 0
  · subst h1
    by_cases h2 : (runScan ev).failed = true
    · simp [executeWithSpinnerAndResultModel, h2]
    · have h2' : (runScan ev).failed = false := by
        revert h2; cases (runScan ev).failed <;> simp
      by_cases h3 : (runScan ev).result.Failed = 0
      · simp [executeWithSpinnerAndResultModel, h2', h3]
      · have h3' : (runScan ev).result.Failed > 0 := Nat.pos_of_ne_zero h3
        simp [executeWithSpinnerAndResultModel, h2', h3', h3]
  · simp [executeWithSpinnerAndResultModel, h1]

/-- C9 counterexample: for an `SSL_ISSUED:` line whose free text after
`expiry=` starts and ends with whitespace, the stored expiry is the
trimmed text, not the raw end-of-line text, so the field is not passed
through unmodified. -/
theorem C9_trim_counterexample :
    sslMatchRaw "SSL_ISSUED: domain=example.com expiry= Mar 15 12:00:00 2024 GMT " =
      some ("example.com", " Mar 15 12:00:00 2024 GMT ") ∧
    parseSSLInfo ["SSL_ISSUED: domain=example.com expiry= Mar 15 12:00:00 2024 GMT "] =
      some { Domain := "example.com", Expiry := "Mar 15 12:00:00 2024 GMT" } ∧
    ("Mar 15 12:00:00 2024 GMT" : String) ≠ " Mar 15 12:00:00 2024 GMT " := by
  exact ⟨by decide, by decide, by decide⟩

/-- C9 (amended): for the first line matching the SSL pattern, the
certificate sub-result holds the captured domain and an expiry equal to
the raw free text running to the end of the line with surrounding
whitespace trimmed — no other normalization and no date parsing. -/
theorem C9_expiry_trimmed (pre post : List String) (l d raw : String)
    (hpre : ∀ x ∈ pre, sslMatchRaw x = none)
    (h : sslMatchRaw l = some (d, raw)) :
    parseSSLInfo (pre ++ l :: post) =
      some { Domain := d, Expiry := String.mk (goTrimSpace raw.toList) } := by
  have hpre' : ∀ x ∈ pre, sslMatch x = none := by
    intro x hx
    have hx' := hpre x hx
    rw [sslMatchRaw] at hx'
    rw [sslMatch]
    cases hfp : firstPos sslAt x.toList
    · rfl
    · rw [hfp] at hx'; cases hx'
  rw [parseSSLInfo_append pre _ hpre']
  rw [sslMatchRaw] at h
  cases hfp : firstPos sslAt l.toList with
  | none => rw [hfp] at h; cases h
  | some p =>
    rw [hfp] at h
    have hpd : (p.1, String.mk p.2) = (d, raw) := Option.some.inj h
    have hd : p.1 = d := congrArg Prod.fst hpd
    have hraw : String.mk p.2 = raw := congrArg Prod.snd hpd
    have hlist : raw.toList = p.2 := by rw [← hraw]; rfl
    have hl : sslMatch l = some { Domain := d, Expiry := String.mk (goTrimSpace p.2) } := by
      rw [sslMatch, hfp]
      simp [hd]
    rw [hlist]
    exact parseSSLInfo_cons_some _ post _ hl

/-- C9 witness: concrete line with surrounding whitespace in the expiry
text; the stored expiry is the trimmed form. -/
theorem C9_expiry_trimmed_witness :
    sslMatchRaw "SSL_ISSUED: domain=wordsail.io expiry= Jun 1 00:00:00 2025 GMT " =
      some ("wordsail.io", " Jun 1 00:00:00 2025 GMT ") ∧
    parseSSLInfo ["SSL_ISSUED: domain=wordsail.io expiry= Jun 1 00:00:00 2025 GMT "] =
      some { Domain := "wordsail.io", Expiry := "Jun 1 00:00:00 2025 GMT" } := by
  have h : sslMatchRaw "SSL_ISSUED: domain=wordsail.io expiry= Jun 1 00:00:00 2025 GMT " =
      some ("wordsail.io", " Jun 1 00:00:00 2025 GMT ") := by decide
  refine ⟨h, ?_⟩
  have main := C9_expiry_trimmed [] []
    "SSL_ISSUED: domain=wordsail.io expiry= Jun 1 00:00:00 2025 GMT "
    "wordsail.io" " Jun 1 00:00:00 2025 GMT "
    (fun x hx => absurd hx (List.not_mem_nil x)) h
  exact main.trans (by decide)

/-- C10: the DNS and SSL sub-results are taken from the first matching
line of the captured output (later marker lines of the same kind are
ignored), whereas the stored recap comes from the last matching recap
line. -/
theorem C10_first_marker_wins :
    (∀ (pre post : List String) (l : String) (r : DNSStatus),
        (∀ x ∈ pre, dnsMatch x = none) → dnsMatch l = some r →
        parseDNSStatus (pre ++ l :: post) = some r) ∧
    (∀ (pre post : List String) (l : String) (r : SSLInfo),
        (∀ x ∈ pre, sslMatch x = none) → sslMatch l = some r →
        parseSSLInfo (pre ++ l :: post) = some r) ∧
    (∀ (ev : List Event) (l : String) (t : Nat × Nat × Nat),
        recapMatch l = some t →
        (runScan (ev ++ [(StreamId.stdout, l)])).result =
          { Ok := t.1, Changed := t.2.1, Failed := t.2.2 }) := by
  refine ⟨?_, ?_, ?_⟩
  · intro pre post l r hpre hl
    rw [parseDNSStatus_append pre _ hpre]
    exact parseDNSStatus_cons_some l post r hl
  · intro pre post l r hpre hl
    rw [parseSSLInfo_append pre _ hpre]
    exact parseSSLInfo_cons_some l post r hl
  · intro ev l t ht
    rw [runScan_append]
    show (stepEvent (runScan ev) (StreamId.stdout, l)).result = _
    rw [stepEvent_result]
    simp [recapOfEvent, ht]

/-- C10 witness: with two DNS markers the first wins, with two SSL
markers the first wins, and with two recap lines the last wins. -/
theorem C10_first_marker_wins_witness :
    parseDNSStatus
        ["DNS_STATUS: domain=a.com resolved_ip=1.1.1.1 server_ip=1.1.1.1 matches=true",
         "DNS_STATUS: domain=b.com resolved_ip=2.2.2.2 server_ip=3.3.3.3 matches=false"] =
      some { Domain := "a.com", ResolvedIP := "1.1.1.1",
             ServerIP := "1.1.1.1", Matches := true } ∧
    parseSSLInfo
        ["SSL_ISSUED: domain=a.com expiry=Jan 1 2025",
         "SSL_ISSUED: domain=b.com expiry=Feb 2 2026"] =
      some { Domain := "a.com", Expiry := "Jan 1 2025" } ∧
    (runScan [(StreamId.stdout, "x : ok=1 changed=1 failed=1"),
              (StreamId.stdout, "x : ok=9 changed=8 failed=7")]).result =
      { Ok := 9, Changed := 8, Failed := 7 } :=
  ⟨C10_first_marker_wins.1 []
      ["DNS_STATUS: domain=b.com resolved_ip=2.2.2.2 server_ip=3.3.3.3 matches=false"]
      "DNS_STATUS: domain=a.com resolved_ip=1.1.1.1 server_ip=1.1.1.1 matches=true"
      { Domain := "a.com", ResolvedIP := "1.1.1.1", ServerIP := "1.1.1.1", Matches := true }
      (fun x hx => absurd hx (List.not_mem_nil x)) (by decide),
   C10_first_marker_wins.2.1 []
      ["SSL_ISSUED: domain=b.com expiry=Feb 2 2026"]
      "SSL_ISSUED: domain=a.com expiry=Jan 1 2025"
      { Domain := "a.com", Expiry := "Jan 1 2025" }
      (fun x hx => absurd hx (List.not_mem_nil x)) (by decide),
   C10_first_marker_wins.2.2 [(StreamId.stdout, "x : ok=1 changed=1 failed=1")]
      "x : ok=9 changed=8 failed=7" (9, 8, 7) (by decide)⟩

end Wordsail
